import Mathlib

/-!
Shallow embedding of the kubetest2 gitremote tester
(`pkg/tester/tester.go`) and of the two external pure helpers its
argument assembly depends on: shell word splitting
(`github.com/kballard/go-shellquote`, function `Split`) and Go's
`time.Duration.String` formatting.

Effectful collaborators (the metadata writer, `git.PlainClone`, the
`KUBECONFIG` / `KUBETEST2_RUN_DIR` environment lookups, `artifacts.BaseDir`,
and the child process run) are modelled as an explicit environment record
whose fields give each call's outcome; the tester logic itself is translated
line by line.
-/

namespace GitRemoteTester

/-! ## Shell word splitting (model of shellquote.Split)

The Go library walks the input with a small state machine implemented with
`goto` labels (`raw`, `single`, `double`, an escape step, plus the top-level
loop of `Split` that skips split characters between words).  We embed it as
one recursive function over the remaining input with an explicit mode.
-/

/-- `splitChars = " \n\t"` in the Go source. -/
def splitChars : List Char := [' ', '\n', '\t']

/-- `doubleEscapeChars` of the Go source: dollar, backtick, double quote,
newline, backslash.  The backtick is written via its code point. -/
def doubleEscapeChars : List Char := ['$', Char.ofNat 96, '"', '\n', '\\']

/-- The three sentinel errors returned by `shellquote.Split`. -/
inductive SplitError where
  | unterminatedSingle
  | unterminatedDouble
  | unterminatedEscape
deriving DecidableEq

/-- The state labels of the Go word splitter: `top` is the loop inside
`Split` (between words), the others are the `raw` / `single` / `double`
labels and the backslash-escape step of `splitWord`. -/
inductive SMode where
  | top
  | raw
  | single
  | double
  | escape
deriving DecidableEq

/-- One-pass embedding of `Split`/`splitWord`.  `buf` is the pending word
buffer, `words` the words emitted so far.  In `.top`, meeting a backslash
whose successor is not a newline enters the escape step with the successor
already known not to be a newline, so that step is inlined (`raw` with the
escaped character buffered), keeping the recursion structural. -/
def splitAux (mode : SMode) (buf : List Char) (words : List (List Char)) (input : List Char) :
    Except SplitError (List (List Char)) :=
  match mode, input with
  | .top, [] => .ok words
  | .raw, [] => .ok (words ++ [buf])
  | .single, [] => .error .unterminatedSingle
  | .double, [] => .error .unterminatedDouble
  | .escape, [] => .error .unterminatedEscape
  | .top, c :: rest =>
    if c ∈ splitChars then splitAux .top [] words rest
    else if c = '\\' then
      match rest with
      | [] => .error .unterminatedEscape
      | c2 :: rest2 =>
        if c2 = '\n' then splitAux .top [] words rest2
        else splitAux .raw [c2] words rest2
    else if c = '\'' then splitAux .single [] words rest
    else if c = '"' then splitAux .double [] words rest
    else splitAux .raw [c] words rest
  | .raw, c :: rest =>
    if c = '\'' then splitAux .single buf words rest
    else if c = '"' then splitAux .double buf words rest
    else if c = '\\' then splitAux .escape buf words rest
    else if c ∈ splitChars then splitAux .top [] (words ++ [buf]) rest
    else splitAux .raw (buf ++ [c]) words rest
  | .single, c :: rest =>
    if c = '\'' then splitAux .raw buf words rest
    else splitAux .single (buf ++ [c]) words rest
  | .double, c :: rest =>
    if c = '"' then splitAux .raw buf words rest
    else if c = '\\' then
      match rest with
      | [] => .error .unterminatedDouble
      | c2 :: rest2 =>
        if c2 ∈ doubleEscapeChars then
          if c2 = '\n' then splitAux .double buf words rest2
          else splitAux .double (buf ++ [c2]) words rest2
        else splitAux .double (buf ++ [c, c2]) words rest2
    else splitAux .double (buf ++ [c]) words rest
  | .escape, c :: rest =>
    if c = '\n' then splitAux .raw buf words rest
    else splitAux .raw (buf ++ [c]) words rest
termination_by structural input

/-- `shellquote.Split` on character lists. -/
def split (input : List Char) : Except SplitError (List (List Char)) :=
  splitAux .top [] [] input

/-- `shellquote.Split` on strings. -/
def stringSplit (s : String) : Except SplitError (List String) :=
  (split s.data).map (fun ws => ws.map String.mk)

/-! ## Go `time.Duration.String`

`Timeout` is a `time.Duration`, an `int64` count of nanoseconds; the
assembled arguments embed its canonical `String()` rendering. -/

/-- Model of Go's `fmtFrac`: format the last `prec` digits of `v` as a
decimal fraction (leading dot included), omitting trailing zeros and the
dot when every digit is zero; also return `v` shifted right by `prec`
digits.  `print` is the latch that becomes true at the first nonzero digit
seen from the least-significant end. -/
def fmtFracGo : Nat → Nat → Bool → List Char × Nat
  | v, 0, print => (if print then ['.'] else [], v)
  | v, prec + 1, print =>
    let digit := v % 10
    let print := print || digit != 0
    let (ds, v') := fmtFracGo (v / 10) prec print
    (if print then ds ++ [Char.ofNat (48 + digit)] else ds, v')

/-- Model of Go's `Duration.String`: `"0s"` for zero; `ns`/`µs`/`ms` with
up to three fractional digits below one second; otherwise seconds with a
nine-digit fraction, minutes and hours prepended when nonzero; a leading
minus sign for negative durations. -/
def durationString (d : Int) : String :=
  let u : Nat := d.natAbs
  let s :=
    if u < 1000000000 then
      if u = 0 then "0s"
      else if u < 1000 then toString u ++ "ns"
      else if u < 1000000 then
        let fv := fmtFracGo u 3 false
        toString fv.2 ++ String.mk fv.1 ++ "µs"
      else
        let fv := fmtFracGo u 6 false
        toString fv.2 ++ String.mk fv.1 ++ "ms"
    else
      let fv := fmtFracGo u 9 false
      let secs := fv.2 % 60
      let rest := fv.2 / 60
      let core := toString secs ++ String.mk fv.1 ++ "s"
      if rest = 0 then core
      else
        let core := toString (rest % 60) ++ "m" ++ core
        let hours := rest / 60
        if hours = 0 then core else toString hours ++ "h" ++ core
  if d < 0 then "-" ++ s else s

/-- `time.Hour` in nanoseconds. -/
def goHour : Int := 3600000000000

/-! ## The tester data model (`type Tester struct`) -/

/-- The `Tester` struct: the eight exported flag-backed fields followed by
the unexported fields (`kubeconfigPath`, `runDir`, and the three binary
paths that nothing in this repository ever assigns).  `int` fields become
`Int`, `time.Duration` becomes `Int` nanoseconds. -/
structure Tester where
  FlakeAttempts : Int
  GinkgoArgs : String
  Parallel : Int
  SkipRegex : String
  FocusRegex : String
  Timeout : Int
  Env : List String
  Repo : String
  kubeconfigPath : String
  runDir : String
  e2eTestPath : String
  ginkgoPath : String
  kubectlPath : String
deriving DecidableEq

/-- `NewDefaultTester`: flake attempts 1, parallel 1, timeout 24 hours,
nil env; the remaining fields keep their Go zero values. -/
def NewDefaultTester : Tester :=
  { FlakeAttempts := 1
    GinkgoArgs := ""
    Parallel := 1
    SkipRegex := ""
    FocusRegex := ""
    Timeout := 24 * goHour
    Env := []
    Repo := ""
    kubeconfigPath := ""
    runDir := ""
    e2eTestPath := ""
    ginkgoPath := ""
    kubectlPath := "" }

/-- The subprocess invocation performed by `Test`: the binary path handed
to `exec.Command`, the argument vector, and the environment set by
`cmd.SetEnv`. -/
structure Launch where
  path : String
  args : List String
  env : List String
deriving DecidableEq

deriving instance DecidableEq for Except

/-- The failure modes of `Test`, in the order the code can hit them:
metadata write, clone (`pretestSetup`), missing kubeconfig, ginkgo-args
parse, and a non-zero child exit.  Wrapped underlying errors are carried
as payloads. -/
inductive TestError where
  | metadataError (e : String)
  | cloneError (e : String)
  | kubeconfigMissing
  | argParseError (e : SplitError)
  | testRunError (e : String)
deriving DecidableEq

/-- Outcomes of the effectful collaborators `Test` calls, in source order:
`testers.WriteVersionToMetadata`, `git.PlainClone` (a function of the
target directory and URL it is given), the `KUBECONFIG` lookup,
`artifacts.BaseDir()`, and the child process run (a function of the
invocation). -/
structure World where
  metadataResult : Except String Unit
  clone : String → String → Except String Unit
  kubeconfigEnv : Option String
  reportDir : String
  run : Launch → Except String Unit

/-- What one call of `Test` did: its return value, how many times the
clone was attempted, the subprocess invocation if one was made, and the
tester struct as it stands afterwards. -/
structure TestOutcome where
  result : Except TestError Unit
  cloneAttempts : Nat
  launched : Option Launch
  tester : Tester

/-- `pretestSetup`: a single `git.PlainClone(t.runDir, false, {URL: t.Repo})`,
its failure wrapped as the clone error. -/
def pretestSetup (t : Tester) (w : World) : Except TestError Unit :=
  match w.clone t.runDir t.Repo with
  | .error e => .error (.cloneError e)
  | .ok _ => .ok ()

/-- The kubeconfig fallback in `Test`: when `t.kubeconfigPath` is empty it
is filled from `KUBECONFIG`, and `none` (the "kubeconfig path not
provided" failure) results when that variable is unset too. -/
def resolveKubeconfig (t : Tester) (w : World) : Option Tester :=
  if t.kubeconfigPath = "" then
    match w.kubeconfigEnv with
    | some kubeconfig => some { t with kubeconfigPath := kubeconfig }
    | none => none
  else some t

/-- The `e2eTestArgs` local of `Test`: the five fixed suite-level flags in
source order. -/
def e2eTestArgs (t : Tester) (reportDir : String) : List String :=
  ["--kubeconfig=" ++ t.kubeconfigPath,
   "--ginkgo.skip=" ++ t.SkipRegex,
   "--ginkgo.focus=" ++ t.FocusRegex,
   "--report-dir=" ++ reportDir,
   "--ginkgo.timeout=" ++ durationString t.Timeout]

/-- The `ginkgoArgs` local of `Test`: the parsed extra arguments, then
`--nodes=<Parallel>`, the suite binary path, the `--` separator, and the
suite-level flags. -/
def ginkgoArgs (t : Tester) (reportDir : String) (extraGingkoArgs : List String) : List String :=
  extraGingkoArgs ++
    ["--nodes=" ++ toString t.Parallel, t.e2eTestPath, "--"] ++
    e2eTestArgs t reportDir

/-- The `exec.Command(t.ginkgoPath, ginkgoArgs...)` / `cmd.SetEnv(t.Env...)`
invocation `Test` hands to the process runner. -/
def launchOf (t : Tester) (reportDir : String) (extraGingkoArgs : List String) : Launch :=
  ⟨t.ginkgoPath, ginkgoArgs t reportDir extraGingkoArgs, t.Env⟩

/-- `Test`: write version metadata, clone, resolve the kubeconfig, split
`GinkgoArgs`, assemble the argument vector, and run the child process. -/
def Test (t : Tester) (w : World) : TestOutcome :=
  match w.metadataResult with
  | .error e => ⟨.error (.metadataError e), 0, none, t⟩
  | .ok _ =>
    match pretestSetup t w with
    | .error e => ⟨.error e, 1, none, t⟩
    | .ok _ =>
      match resolveKubeconfig t w with
      | none => ⟨.error .kubeconfigMissing, 1, none, t⟩
      | some t' =>
        match stringSplit t'.GinkgoArgs with
        | .error e => ⟨.error (.argParseError e), 1, none, t'⟩
        | .ok extraGingkoArgs =>
          match w.run (launchOf t' w.reportDir extraGingkoArgs) with
          | .error e => ⟨.error (.testRunError e), 1, some (launchOf t' w.reportDir extraGingkoArgs), t'⟩
          | .ok _ => ⟨.ok (), 1, some (launchOf t' w.reportDir extraGingkoArgs), t'⟩

/-! ## `Execute` and `Main` -/

/-- The values the eight generated flags carry after `fs.Parse`. -/
structure FlagValues where
  FlakeAttempts : Int
  GinkgoArgs : String
  Parallel : Int
  SkipRegex : String
  FocusRegex : String
  Timeout : Int
  Env : List String
  Repo : String

/-- Flag parsing writes exactly the eight exported, tag-generated fields
of the tester; the unexported fields have no flags. -/
def applyFlags (t : Tester) (f : FlagValues) : Tester :=
  { t with
    FlakeAttempts := f.FlakeAttempts
    GinkgoArgs := f.GinkgoArgs
    Parallel := f.Parallel
    SkipRegex := f.SkipRegex
    FocusRegex := f.FocusRegex
    Timeout := f.Timeout
    Env := f.Env
    Repo := f.Repo }

/-- The failure modes of `Execute`: `gpflag.Parse` setup failure,
`fs.Parse` failure, run-directory resolution failure, and anything out of
`Test`. -/
inductive ExecError where
  | initError (e : String)
  | flagParseError (e : String)
  | runDirError (e : String)
  | testError (e : TestError)
deriving DecidableEq

/-- Outcomes of the collaborators `Execute` consults: `gpflag.Parse`,
`fs.Parse` together with the parsed flag and help values, the
`KUBETEST2_RUN_DIR` lookup, `os.Getwd`, and the world `Test` runs in. -/
structure ExecWorld where
  gpflagResult : Except String Unit
  parseResult : Except String Unit
  helpFlag : Bool
  flags : FlagValues
  runDirEnv : Option String
  getwd : Except String String
  world : World

/-- What one call of `Execute` did: its return value, whether the help
text was printed to standard output, whether the run-directory resolution
step ran, and the clone/launch record of the inner `Test` call. -/
structure ExecOutcome where
  result : Except ExecError Unit
  printedHelp : Bool
  resolvedRunDir : Bool
  cloneAttempts : Nat
  launched : Option Launch
  tester : Tester

/-- `initKubetest2Info`: take `KUBETEST2_RUN_DIR` when set, else the
working directory, else fail. -/
def initKubetest2Info (t : Tester) (runDirEnv : Option String) (getwd : Except String String) :
    Except String Tester :=
  match runDirEnv with
  | some dir => .ok { t with runDir := dir }
  | none =>
    match getwd with
    | .error e => .error e
    | .ok dir => .ok { t with runDir := dir }

/-- `Execute`: build the flag set, parse the command line, print the flag
documentation and return nil when help was requested, otherwise resolve
the run directory and call `Test`. -/
def Execute (t : Tester) (w : ExecWorld) : ExecOutcome :=
  match w.gpflagResult with
  | .error e => ⟨.error (.initError e), false, false, 0, none, t⟩
  | .ok _ =>
    match w.parseResult with
    | .error e => ⟨.error (.flagParseError e), false, false, 0, none, applyFlags t w.flags⟩
    | .ok _ =>
      let t1 := applyFlags t w.flags
      if w.helpFlag then ⟨.ok (), true, false, 0, none, t1⟩
      else
        match initKubetest2Info t1 w.runDirEnv w.getwd with
        | .error e => ⟨.error (.runDirError e), false, true, 0, none, t1⟩
        | .ok t2 =>
          let o := Test t2 w.world
          ⟨o.result.mapError ExecError.testError, false, true, o.cloneAttempts, o.launched, o.tester⟩

/-- `Main` runs `Execute` on `NewDefaultTester` (and would log fatally on
error, mirroring the process's non-zero exit). -/
def MainRun (w : ExecWorld) : ExecOutcome :=
  Execute NewDefaultTester w

/-! ## Concrete inputs used by witnesses and counterexamples -/

/-- A benign collaborator environment: every external call succeeds and
`KUBECONFIG` is set. -/
def wOK : World :=
  { metadataResult := .ok ()
    clone := fun _ _ => .ok ()
    kubeconfigEnv := some "envkc"
    reportDir := "rdir"
    run := fun _ => .ok () }

/-! ## Helper lemmas -/

/-- Kubeconfig resolution can only fill in `kubeconfigPath`; every other
field survives unchanged. -/
theorem resolveKubeconfig_eq (t t' : Tester) (w : World)
    (h : resolveKubeconfig t w = some t') :
    t' = { t with kubeconfigPath := t'.kubeconfigPath } := by
  unfold resolveKubeconfig at h
  split at h
  · cases hk : w.kubeconfigEnv with
    | some k => rw [hk] at h; injection h with h; subst h; rfl
    | none => rw [hk] at h; cases h
  · injection h with h; subst h; rfl

/-- When `Test` launched the subprocess, the launch is exactly the one
assembled from the kubeconfig-resolved tester and the successful split of
its `GinkgoArgs`. -/
theorem Test_launched_spec (t : Tester) (w : World) (l : Launch)
    (h : (Test t w).launched = some l) :
    ∃ t' extra, resolveKubeconfig t w = some t' ∧
      stringSplit t'.GinkgoArgs = .ok extra ∧
      (Test t w).tester = t' ∧
      l = launchOf t' w.reportDir extra := by
  cases hm : w.metadataResult with
  | error e =>
    have hn : (Test t w).launched = none := by unfold Test; simp only [hm]
    rw [hn] at h; exact Option.noConfusion h
  | ok u =>
    cases hp : pretestSetup t w with
    | error e =>
      have hn : (Test t w).launched = none := by unfold Test; simp only [hm, hp]
      rw [hn] at h; exact Option.noConfusion h
    | ok v =>
      cases hr : resolveKubeconfig t w with
      | none =>
        have hn : (Test t w).launched = none := by unfold Test; simp only [hm, hp, hr]
        rw [hn] at h; exact Option.noConfusion h
      | some t' =>
        cases hs : stringSplit t'.GinkgoArgs with
        | error e =>
          have hn : (Test t w).launched = none := by unfold Test; simp only [hm, hp, hr, hs]
          rw [hn] at h; exact Option.noConfusion h
        | ok extra =>
          have hl : (Test t w).launched = some (launchOf t' w.reportDir extra) ∧
              (Test t w).tester = t' := by
            unfold Test; simp only [hm, hp, hr, hs]
            cases hrun : w.run (launchOf t' w.reportDir extra) <;> exact ⟨rfl, rfl⟩
          rw [hl.1] at h
          injection h with h
          exact ⟨t', extra, rfl, hs, hl.2, h.symm⟩

/-! ## Claims -/

/-- C1: whenever `Test` assembles an argument vector (it reaches the
subprocess invocation), that vector is exactly the shell-word split of
`GinkgoArgs` in parsed order, then the single token `--nodes=<Parallel>`,
then the suite binary path, then `--`, then the fixed suite-level flags in
exactly this order: kubeconfig path, skip regex, focus regex, report
directory, and the timeout rendered as the duration's canonical string. -/
theorem c1_argument_ordering (t : Tester) (w : World) (l : Launch)
    (h : (Test t w).launched = some l) :
    ∃ extra, stringSplit t.GinkgoArgs = .ok extra ∧
      l.args = extra ++
        ["--nodes=" ++ toString t.Parallel, t.e2eTestPath, "--",
         "--kubeconfig=" ++ (Test t w).tester.kubeconfigPath,
         "--ginkgo.skip=" ++ t.SkipRegex,
         "--ginkgo.focus=" ++ t.FocusRegex,
         "--report-dir=" ++ w.reportDir,
         "--ginkgo.timeout=" ++ durationString t.Timeout] := by
  obtain ⟨t', extra, hr, hs, ht, hl⟩ := Test_launched_spec t w l h
  have he := resolveKubeconfig_eq t t' w hr
  refine ⟨extra, ?_, ?_⟩
  · rw [he] at hs; exact hs
  · rw [hl, ht, he]
    simp [launchOf, ginkgoArgs, e2eTestArgs]

/-- C3: shell word splitting follows shell quoting rules on the sample
input, a string with an unbalanced quote fails with the unterminated
single-quote parse error, and on such a `GinkgoArgs` value `Test` returns
the argument-parse error without launching the subprocess. -/
theorem c3_shell_split :
    stringSplit "--foo bar --baz 'qux quux'" = .ok ["--foo", "bar", "--baz", "qux quux"] ∧
    stringSplit "'unterminated" = .error .unterminatedSingle ∧
    (Test { NewDefaultTester with GinkgoArgs := "'unterminated", kubeconfigPath := "kc" } wOK).result
      = .error (.argParseError .unterminatedSingle) ∧
    (Test { NewDefaultTester with GinkgoArgs := "'unterminated", kubeconfigPath := "kc" } wOK).launched
      = none := by
  refine ⟨by decide, by decide, by decide, by decide⟩

/-- A string strictly longer than `q` (because it starts with a prefix
already longer than `q`) cannot equal `q`. -/
theorem ne_append_of_lt_length (p s q : String) (h : q.length < p.length) : q ≠ p ++ s := by
  intro he
  have hl := congrArg String.length he
  rw [String.length_append] at hl
  omega

/-- The exact `--nodes=4` token produced by the assembly when `Parallel = 4`. -/
theorem nodes_token_eq : "--nodes=" ++ toString (4 : Int) = "--nodes=4" := by decide

/-- C2 counterexample: with `Parallel = 4` and `GinkgoArgs = "--nodes=4"`
(which splits without error), the assembled vector contains the token
`--nodes=4` twice, not exactly once. -/
theorem c2_counterexample :
    ({ NewDefaultTester with
        Parallel := 4, GinkgoArgs := "--nodes=4", kubeconfigPath := "kc" } : Tester).Parallel = 4 ∧
    ((Test { NewDefaultTester with
        Parallel := 4, GinkgoArgs := "--nodes=4", kubeconfigPath := "kc" } wOK).launched.map
      fun l => l.args.count "--nodes=4") = some 2 := by
  refine ⟨rfl, by decide⟩

/-- C2 (amended): with `Parallel = 4`, when the split of `GinkgoArgs`
itself contributes no `--nodes=4` token and the suite binary path holds
its (program-invariant) empty value, the assembled vector contains exactly
one `--nodes=4` token. -/
theorem c2_single_nodes_token (t : Tester) (w : World) (l : Launch) (extra : List String)
    (hp : t.Parallel = 4) (he : t.e2eTestPath = "")
    (hl : (Test t w).launched = some l)
    (hs : stringSplit t.GinkgoArgs = .ok extra)
    (hx : extra.count "--nodes=4" = 0) :
    l.args.count "--nodes=4" = 1 := by
  obtain ⟨t', extra2, hr, hs2, ht, hld⟩ := Test_launched_spec t w l hl
  have hee := resolveKubeconfig_eq t t' w hr
  have hg : t'.GinkgoArgs = t.GinkgoArgs := by rw [hee]
  rw [hg, hs] at hs2
  injection hs2 with hs2
  subst hs2
  have hp' : t'.Parallel = (4 : Int) := by rw [hee]; exact hp
  have he' : t'.e2eTestPath = "" := by rw [hee]; exact he
  have h1 : ("--nodes=4" : String) ≠ "--kubeconfig=" ++ t'.kubeconfigPath :=
    ne_append_of_lt_length _ _ _ (by decide)
  have h2 : ("--nodes=4" : String) ≠ "--ginkgo.skip=" ++ t'.SkipRegex :=
    ne_append_of_lt_length _ _ _ (by decide)
  have h3 : ("--nodes=4" : String) ≠ "--ginkgo.focus=" ++ t'.FocusRegex :=
    ne_append_of_lt_length _ _ _ (by decide)
  have h4 : ("--nodes=4" : String) ≠ "--report-dir=" ++ w.reportDir :=
    ne_append_of_lt_length _ _ _ (by decide)
  have h5 : ("--nodes=4" : String) ≠ "--ginkgo.timeout=" ++ durationString t'.Timeout :=
    ne_append_of_lt_length _ _ _ (by decide)
  have h6 : ("--nodes=4" : String) ≠ "" := by decide
  have h7 : ("--nodes=4" : String) ≠ "--" := by decide
  rw [hld]
  simp only [launchOf, ginkgoArgs, e2eTestArgs, hp', he', nodes_token_eq]
  rw [List.count_append, List.count_append, hx]
  rw [List.count_cons_self, List.count_cons_of_ne h6, List.count_cons_of_ne h7,
    List.count_cons_of_ne h1, List.count_cons_of_ne h2, List.count_cons_of_ne h3,
    List.count_cons_of_ne h4, List.count_cons_of_ne h5]
  simp

/-- C2 witness: a configuration with `Parallel = 4` and empty
`GinkgoArgs` for which the launch happens and the amended count is one. -/
theorem c2_single_nodes_token_witness :
    (⟨"", ["--nodes=4", "", "--", "--kubeconfig=kc", "--ginkgo.skip=", "--ginkgo.focus=",
        "--report-dir=rdir", "--ginkgo.timeout=0s"], []⟩ : Launch).args.count "--nodes=4" = 1 :=
  c2_single_nodes_token
    { NewDefaultTester with Parallel := 4, Timeout := 0, kubeconfigPath := "kc" } wOK _ []
    rfl rfl (by decide) (by decide) (by decide)

/-- C4 counterexample: a run with `KUBECONFIG` unset and no configured
kubeconfig path in which the clone fails returns the clone error, not the
missing-kubeconfig error, so the claim's universal statement fails. -/
theorem c4_counterexample :
    NewDefaultTester.kubeconfigPath = "" ∧
    ({ metadataResult := .ok (), clone := fun _ _ => .error "repository not found",
       kubeconfigEnv := none, reportDir := "rdir", run := fun _ => .ok () } : World).kubeconfigEnv
      = none ∧
    (Test NewDefaultTester
      { metadataResult := .ok (), clone := fun _ _ => .error "repository not found",
        kubeconfigEnv := none, reportDir := "rdir", run := fun _ => .ok () }).result
      = .error (.cloneError "repository not found") ∧
    (Test NewDefaultTester
      { metadataResult := .ok (), clone := fun _ _ => .error "repository not found",
        kubeconfigEnv := none, reportDir := "rdir", run := fun _ => .ok () }).result
      ≠ .error .kubeconfigMissing := by
  refine ⟨rfl, rfl, by decide, by decide⟩

/-- C4 (amended): in every run whose metadata write and clone succeed,
with `KUBECONFIG` unset and no explicit kubeconfig path configured, `Test`
returns the missing-kubeconfig error and never launches the subprocess. -/
theorem c4_kubeconfig_missing (t : Tester) (w : World)
    (hm : w.metadataResult = .ok ())
    (hc : w.clone t.runDir t.Repo = .ok ())
    (hk : t.kubeconfigPath = "")
    (he : w.kubeconfigEnv = none) :
    (Test t w).result = .error .kubeconfigMissing ∧ (Test t w).launched = none := by
  have hp : pretestSetup t w = .ok () := by unfold pretestSetup; rw [hc]
  have hr : resolveKubeconfig t w = none := by
    unfold resolveKubeconfig; simp [hk, he]
  unfold Test
  simp only [hm, hp, hr]
  exact ⟨trivial, trivial⟩

/-- C4 witness: a concrete run (clone succeeding, `KUBECONFIG` unset,
empty kubeconfig path) hitting the missing-kubeconfig failure. -/
theorem c4_kubeconfig_missing_witness :
    (Test NewDefaultTester
      { metadataResult := .ok (), clone := fun _ _ => .ok (), kubeconfigEnv := none,
        reportDir := "rdir", run := fun _ => .ok () }).result = .error .kubeconfigMissing ∧
    (Test NewDefaultTester
      { metadataResult := .ok (), clone := fun _ _ => .ok (), kubeconfigEnv := none,
        reportDir := "rdir", run := fun _ => .ok () }).launched = none :=
  c4_kubeconfig_missing NewDefaultTester _ rfl rfl rfl rfl

/-- C5: when the clone fails, `Test` returns the clone error wrapping the
underlying failure, no subprocess is launched, and the clone was attempted
exactly once (no retry). -/
theorem c5_clone_failure (t : Tester) (w : World) (e : String)
    (hm : w.metadataResult = .ok ())
    (hc : w.clone t.runDir t.Repo = .error e) :
    (Test t w).result = .error (.cloneError e) ∧
    (Test t w).launched = none ∧
    (Test t w).cloneAttempts = 1 := by
  have hp : pretestSetup t w = .error (.cloneError e) := by unfold pretestSetup; rw [hc]
  unfold Test
  simp only [hm, hp]
  exact ⟨trivial, trivial, trivial⟩

/-- C5 witness: a concrete failing clone surfacing as a clone error with
no launch and a single attempt. -/
theorem c5_clone_failure_witness :
    (Test NewDefaultTester
      { metadataResult := .ok (), clone := fun _ _ => .error "unreachable remote",
        kubeconfigEnv := some "envkc", reportDir := "rdir", run := fun _ => .ok () }).result
      = .error (.cloneError "unreachable remote") ∧
    (Test NewDefaultTester
      { metadataResult := .ok (), clone := fun _ _ => .error "unreachable remote",
        kubeconfigEnv := some "envkc", reportDir := "rdir", run := fun _ => .ok () }).launched
      = none ∧
    (Test NewDefaultTester
      { metadataResult := .ok (), clone := fun _ _ => .error "unreachable remote",
        kubeconfigEnv := some "envkc", reportDir := "rdir", run := fun _ => .ok () }).cloneAttempts
      = 1 :=
  c5_clone_failure NewDefaultTester _ "unreachable remote" rfl rfl

/-- C6: when flag parsing succeeds and the help flag is set, `Execute`
prints the flag documentation, returns success, and performs neither the
run-directory resolution, nor the clone, nor any subprocess launch. -/
theorem c6_help_flag (t : Tester) (w : ExecWorld)
    (h1 : w.gpflagResult = .ok ())
    (h2 : w.parseResult = .ok ())
    (h3 : w.helpFlag = true) :
    (Execute t w).result = .ok () ∧
    (Execute t w).printedHelp = true ∧
    (Execute t w).resolvedRunDir = false ∧
    (Execute t w).cloneAttempts = 0 ∧
    (Execute t w).launched = none := by
  unfold Execute
  simp only [h1, h2, h3, if_true]
  exact ⟨trivial, trivial, trivial, trivial, trivial⟩

/-- C6 witness: a concrete invocation with the help flag set. -/
theorem c6_help_flag_witness :
    (Execute NewDefaultTester
      { gpflagResult := .ok (), parseResult := .ok (), helpFlag := true,
        flags := ⟨1, "", 1, "", "", 0, [], ""⟩, runDirEnv := some "/rd",
        getwd := .ok "/cwd", world := wOK }).result = .ok () ∧
    (Execute NewDefaultTester
      { gpflagResult := .ok (), parseResult := .ok (), helpFlag := true,
        flags := ⟨1, "", 1, "", "", 0, [], ""⟩, runDirEnv := some "/rd",
        getwd := .ok "/cwd", world := wOK }).printedHelp = true ∧
    (Execute NewDefaultTester
      { gpflagResult := .ok (), parseResult := .ok (), helpFlag := true,
        flags := ⟨1, "", 1, "", "", 0, [], ""⟩, runDirEnv := some "/rd",
        getwd := .ok "/cwd", world := wOK }).resolvedRunDir = false ∧
    (Execute NewDefaultTester
      { gpflagResult := .ok (), parseResult := .ok (), helpFlag := true,
        flags := ⟨1, "", 1, "", "", 0, [], ""⟩, runDirEnv := some "/rd",
        getwd := .ok "/cwd", world := wOK }).cloneAttempts = 0 ∧
    (Execute NewDefaultTester
      { gpflagResult := .ok (), parseResult := .ok (), helpFlag := true,
        flags := ⟨1, "", 1, "", "", 0, [], ""⟩, runDirEnv := some "/rd",
        getwd := .ok "/cwd", world := wOK }).launched = none :=
  c6_help_flag NewDefaultTester _ rfl rfl rfl

/-- A benign `Execute` environment: flag parsing succeeds, help is not
requested, the run-directory variable is set, and the world is `wOK`. -/
def eOK : ExecWorld :=
  { gpflagResult := .ok ()
    parseResult := .ok ()
    helpFlag := false
    flags := ⟨1, "", 1, "", "", 0, [], "r"⟩
    runDirEnv := some "/rd"
    getwd := .ok "/cwd"
    world := wOK }

/-- Run-directory resolution can only fill in `runDir`; every other field
survives unchanged. -/
theorem initKubetest2Info_eq (t t2 : Tester) (rde : Option String) (gw : Except String String)
    (h : initKubetest2Info t rde gw = .ok t2) :
    t2 = { t with runDir := t2.runDir } := by
  unfold initKubetest2Info at h
  cases rde with
  | some d => injection h with h; subst h; rfl
  | none =>
    cases gw with
    | error e => exact Except.noConfusion h
    | ok d => injection h with h; subst h; rfl

/-- Across every branch of `Test`, the returned tester differs from the
input tester at most in `kubeconfigPath`. -/
theorem Test_tester_eq (t : Tester) (w : World) :
    (Test t w).tester = { t with kubeconfigPath := (Test t w).tester.kubeconfigPath } := by
  cases hm : w.metadataResult with
  | error e =>
    have hT : (Test t w).tester = t := by unfold Test; simp only [hm]
    rw [hT]
  | ok u =>
    cases hp : pretestSetup t w with
    | error e =>
      have hT : (Test t w).tester = t := by unfold Test; simp only [hm, hp]
      rw [hT]
    | ok v =>
      cases hr : resolveKubeconfig t w with
      | none =>
        have hT : (Test t w).tester = t := by unfold Test; simp only [hm, hp, hr]
        rw [hT]
      | some t' =>
        have hT : (Test t w).tester = t' := by
          unfold Test
          simp only [hm, hp, hr]
          cases hs : stringSplit t'.GinkgoArgs with
          | error e => rfl
          | ok extra =>
            dsimp only
            cases hrun : w.run (launchOf t' w.reportDir extra) <;> rfl
        rw [hT]
        exact resolveKubeconfig_eq t t' w hr

/-- C8 counterexample: in a benign run, run-directory resolution mutates
`runDir` and kubeconfig resolution mutates `kubeconfigPath` after flag
parsing has completed, so the configuration record is not read-only. -/
theorem c8_counterexample :
    (applyFlags NewDefaultTester eOK.flags).runDir = "" ∧
    (Execute NewDefaultTester eOK).tester.runDir = "/rd" ∧
    (applyFlags NewDefaultTester eOK.flags).kubeconfigPath = "" ∧
    (Execute NewDefaultTester eOK).tester.kubeconfigPath = "envkc" := by
  refine ⟨rfl, by decide, rfl, by decide⟩

/-- C8 (amended): after flag parsing completes, the only fields later
steps may write are the internal `runDir` (run-directory resolution) and
`kubeconfigPath` (kubeconfig fallback); the eight flag-backed fields and
the three binary-path fields are never mutated. -/
theorem c8_flag_fields_read_only (t : Tester) (w : ExecWorld)
    (h1 : w.gpflagResult = .ok ())
    (h2 : w.parseResult = .ok ()) :
    (Execute t w).tester.FlakeAttempts = (applyFlags t w.flags).FlakeAttempts ∧
    (Execute t w).tester.GinkgoArgs = (applyFlags t w.flags).GinkgoArgs ∧
    (Execute t w).tester.Parallel = (applyFlags t w.flags).Parallel ∧
    (Execute t w).tester.SkipRegex = (applyFlags t w.flags).SkipRegex ∧
    (Execute t w).tester.FocusRegex = (applyFlags t w.flags).FocusRegex ∧
    (Execute t w).tester.Timeout = (applyFlags t w.flags).Timeout ∧
    (Execute t w).tester.Env = (applyFlags t w.flags).Env ∧
    (Execute t w).tester.Repo = (applyFlags t w.flags).Repo ∧
    (Execute t w).tester.e2eTestPath = (applyFlags t w.flags).e2eTestPath ∧
    (Execute t w).tester.ginkgoPath = (applyFlags t w.flags).ginkgoPath ∧
    (Execute t w).tester.kubectlPath = (applyFlags t w.flags).kubectlPath := by
  cases h3 : w.helpFlag with
  | true =>
    have hT : (Execute t w).tester = applyFlags t w.flags := by
      unfold Execute; simp [h1, h2, h3]
    rw [hT]
    exact ⟨rfl, rfl, rfl, rfl, rfl, rfl, rfl, rfl, rfl, rfl, rfl⟩
  | false =>
    cases hi : initKubetest2Info (applyFlags t w.flags) w.runDirEnv w.getwd with
    | error e =>
      have hT : (Execute t w).tester = applyFlags t w.flags := by
        unfold Execute; simp [h1, h2, h3, hi]
      rw [hT]
      exact ⟨rfl, rfl, rfl, rfl, rfl, rfl, rfl, rfl, rfl, rfl, rfl⟩
    | ok t2 =>
      have hT : (Execute t w).tester = (Test t2 w.world).tester := by
        unfold Execute; simp [h1, h2, h3, hi]
      have h4 := initKubetest2Info_eq (applyFlags t w.flags) t2 w.runDirEnv w.getwd hi
      rw [hT, Test_tester_eq t2 w.world, h4]
      exact ⟨rfl, rfl, rfl, rfl, rfl, rfl, rfl, rfl, rfl, rfl, rfl⟩

/-- C8 witness: the amendment instantiated on a benign environment. -/
theorem c8_flag_fields_read_only_witness :
    (Execute NewDefaultTester eOK).tester.FlakeAttempts
      = (applyFlags NewDefaultTester eOK.flags).FlakeAttempts ∧
    (Execute NewDefaultTester eOK).tester.GinkgoArgs
      = (applyFlags NewDefaultTester eOK.flags).GinkgoArgs ∧
    (Execute NewDefaultTester eOK).tester.Parallel
      = (applyFlags NewDefaultTester eOK.flags).Parallel ∧
    (Execute NewDefaultTester eOK).tester.SkipRegex
      = (applyFlags NewDefaultTester eOK.flags).SkipRegex ∧
    (Execute NewDefaultTester eOK).tester.FocusRegex
      = (applyFlags NewDefaultTester eOK.flags).FocusRegex ∧
    (Execute NewDefaultTester eOK).tester.Timeout
      = (applyFlags NewDefaultTester eOK.flags).Timeout ∧
    (Execute NewDefaultTester eOK).tester.Env
      = (applyFlags NewDefaultTester eOK.flags).Env ∧
    (Execute NewDefaultTester eOK).tester.Repo
      = (applyFlags NewDefaultTester eOK.flags).Repo ∧
    (Execute NewDefaultTester eOK).tester.e2eTestPath
      = (applyFlags NewDefaultTester eOK.flags).e2eTestPath ∧
    (Execute NewDefaultTester eOK).tester.ginkgoPath
      = (applyFlags NewDefaultTester eOK.flags).ginkgoPath ∧
    (Execute NewDefaultTester eOK).tester.kubectlPath
      = (applyFlags NewDefaultTester eOK.flags).kubectlPath :=
  c8_flag_fields_read_only NewDefaultTester eOK rfl rfl

/-- C1 witness: a concrete benign run; the assembled vector is the split
of the (empty) extra arguments followed by the fixed tail. -/
theorem c1_argument_ordering_witness :
    ∃ extra, stringSplit "" = .ok extra ∧
      (["--nodes=1", "", "--", "--kubeconfig=kc", "--ginkgo.skip=", "--ginkgo.focus=",
        "--report-dir=rdir", "--ginkgo.timeout=0s"] : List String) = extra ++
        ["--nodes=1", "", "--", "--kubeconfig=kc", "--ginkgo.skip=", "--ginkgo.focus=",
         "--report-dir=rdir", "--ginkgo.timeout=0s"] :=
  c1_argument_ordering { NewDefaultTester with kubeconfigPath := "kc", Timeout := 0 } wOK
    ⟨"", ["--nodes=1", "", "--", "--kubeconfig=kc", "--ginkgo.skip=", "--ginkgo.focus=",
      "--report-dir=rdir", "--ginkgo.timeout=0s"], []⟩ (by decide)

/-- Kubeconfig resolution succeeds or fails the same way for two testers
sharing the same `kubeconfigPath`. -/
theorem resolveKubeconfig_isSome_congr (tA tB : Tester) (w : World)
    (hEq : tA.kubeconfigPath = tB.kubeconfigPath) :
    (resolveKubeconfig tA w).isSome = (resolveKubeconfig tB w).isSome := by
  unfold resolveKubeconfig
  rw [hEq]
  by_cases hk : tB.kubeconfigPath = ""
  · simp only [if_pos hk]
    cases w.kubeconfigEnv <;> rfl
  · simp only [if_neg hk]
    rfl

/-- Whether `Test` reaches the subprocess launch is determined by the
four gating collaborator outcomes. -/
theorem Test_launched_isSome_eq (t : Tester) (w : World) :
    ((Test t w).launched).isSome =
      (w.metadataResult.isOk && (w.clone t.runDir t.Repo).isOk &&
        (resolveKubeconfig t w).isSome && (stringSplit t.GinkgoArgs).isOk) := by
  cases hm : w.metadataResult with
  | error e =>
    have hn : (Test t w).launched = none := by unfold Test; simp only [hm]
    rw [hn]; rfl
  | ok u =>
    cases hc : w.clone t.runDir t.Repo with
    | error e =>
      have hp : pretestSetup t w = .error (.cloneError e) := by unfold pretestSetup; rw [hc]
      have hn : (Test t w).launched = none := by unfold Test; simp only [hm, hp]
      rw [hn]; rfl
    | ok v =>
      have hp : pretestSetup t w = .ok () := by unfold pretestSetup; rw [hc]
      cases hr : resolveKubeconfig t w with
      | none =>
        have hn : (Test t w).launched = none := by unfold Test; simp only [hm, hp, hr]
        rw [hn]; rfl
      | some t' =>
        have hg : t'.GinkgoArgs = t.GinkgoArgs := by
          rw [resolveKubeconfig_eq t t' w hr]
        cases hs : stringSplit t'.GinkgoArgs with
        | error e =>
          have hn : (Test t w).launched = none := by unfold Test; simp only [hm, hp, hr, hs]
          rw [hn, ← hg, hs]; rfl
        | ok extra =>
          have hsome : (Test t w).launched = some (launchOf t' w.reportDir extra) := by
            unfold Test; simp only [hm, hp, hr, hs]
            cases hrun : w.run (launchOf t' w.reportDir extra) <;> rfl
          rw [hsome, ← hg, hs]; rfl

/-- C7 counterexample: a configuration that parses with `Parallel = 0`
(violating the claimed bound) proceeds past flag parsing, launches the
subprocess, and the run succeeds rather than failing. -/
theorem c7_counterexample :
    (applyFlags NewDefaultTester (⟨0, "", 0, "", "", -1, [], "r"⟩ : FlagValues)).Parallel = 0 ∧
    (Execute NewDefaultTester { eOK with flags := ⟨0, "", 0, "", "", -1, [], "r"⟩ }).result
      = .ok () ∧
    ((Execute NewDefaultTester
      { eOK with flags := ⟨0, "", 0, "", "", -1, [], "r"⟩ }).launched).isSome = true := by
  refine ⟨rfl, by decide, by decide⟩

/-- C7 (amended): the defaults satisfy the stated bounds (flake attempts
1, parallel 1, timeout 24h), but no step of the run validates them:
whether the subprocess launch is reached is unchanged under arbitrary
(including non-positive) parallelism, flake-attempt, and timeout values. -/
theorem c7_no_bounds_validation :
    (NewDefaultTester.FlakeAttempts = 1 ∧ NewDefaultTester.Parallel = 1 ∧
      NewDefaultTester.Timeout = 24 * goHour ∧ 0 < NewDefaultTester.FlakeAttempts ∧
      0 < NewDefaultTester.Parallel ∧ 0 ≤ NewDefaultTester.Timeout) ∧
    ∀ (t : Tester) (w : World) (p f d : Int),
      ((Test { t with Parallel := p, FlakeAttempts := f, Timeout := d } w).launched).isSome
        = ((Test t w).launched).isSome := by
  refine ⟨⟨rfl, rfl, rfl, by decide, by decide, by decide⟩, ?_⟩
  intro t w p f d
  rw [Test_launched_isSome_eq, Test_launched_isSome_eq]
  have h4 := resolveKubeconfig_isSome_congr
    { t with Parallel := p, FlakeAttempts := f, Timeout := d } t w rfl
  rw [h4]

/-- Changing only `FlakeAttempts` leaves the resolution structure intact:
the resolved tester is the resolved original with the same replacement. -/
theorem resolveKubeconfig_flake (t : Tester) (w : World) (f : Int) :
    resolveKubeconfig { t with FlakeAttempts := f } w
      = (resolveKubeconfig t w).map (fun x => { x with FlakeAttempts := f }) := by
  unfold resolveKubeconfig
  by_cases hk : t.kubeconfigPath = ""
  · have hk' : ({ t with FlakeAttempts := f } : Tester).kubeconfigPath = "" := hk
    rw [if_pos hk', if_pos hk]
    cases w.kubeconfigEnv <;> rfl
  · have hk' : ¬ ({ t with FlakeAttempts := f } : Tester).kubeconfigPath = "" := hk
    rw [if_neg hk', if_neg hk]
    rfl

/-- `Test` never reads `FlakeAttempts`: replacing it changes neither the
launch nor the result. -/
theorem Test_flake_congr (t : Tester) (w : World) (f : Int) :
    (Test { t with FlakeAttempts := f } w).launched = (Test t w).launched ∧
    (Test { t with FlakeAttempts := f } w).result = (Test t w).result := by
  cases hm : w.metadataResult with
  | error e =>
    have hA : Test { t with FlakeAttempts := f } w =
        ⟨.error (.metadataError e), 0, none, { t with FlakeAttempts := f }⟩ := by
      unfold Test; simp only [hm]
    have hB : Test t w = ⟨.error (.metadataError e), 0, none, t⟩ := by
      unfold Test; simp only [hm]
    rw [hA, hB]; exact ⟨rfl, rfl⟩
  | ok u =>
    have hclone : pretestSetup { t with FlakeAttempts := f } w = pretestSetup t w := rfl
    cases hp : pretestSetup t w with
    | error e =>
      have hA : Test { t with FlakeAttempts := f } w =
          ⟨.error e, 1, none, { t with FlakeAttempts := f }⟩ := by
        unfold Test; simp only [hm, hclone, hp]
      have hB : Test t w = ⟨.error e, 1, none, t⟩ := by
        unfold Test; simp only [hm, hp]
      rw [hA, hB]; exact ⟨rfl, rfl⟩
    | ok v =>
      have hres := resolveKubeconfig_flake t w f
      cases hr : resolveKubeconfig t w with
      | none =>
        have hresn : resolveKubeconfig { t with FlakeAttempts := f } w = none := by
          rw [hres, hr]; rfl
        have hA : Test { t with FlakeAttempts := f } w =
            ⟨.error .kubeconfigMissing, 1, none, { t with FlakeAttempts := f }⟩ := by
          unfold Test; simp only [hm, hclone, hp, hresn]
        have hB : Test t w = ⟨.error .kubeconfigMissing, 1, none, t⟩ := by
          unfold Test; simp only [hm, hp, hr]
        rw [hA, hB]; exact ⟨rfl, rfl⟩
      | some t' =>
        have hress : resolveKubeconfig { t with FlakeAttempts := f } w
            = some { t' with FlakeAttempts := f } := by
          rw [hres, hr]; rfl
        have hsplit : stringSplit ({ t' with FlakeAttempts := f } : Tester).GinkgoArgs
            = stringSplit t'.GinkgoArgs := rfl
        cases hs : stringSplit t'.GinkgoArgs with
        | error e =>
          have hA : Test { t with FlakeAttempts := f } w =
              ⟨.error (.argParseError e), 1, none, { t' with FlakeAttempts := f }⟩ := by
            unfold Test; simp only [hm, hclone, hp, hress, hsplit, hs]
          have hB : Test t w = ⟨.error (.argParseError e), 1, none, t'⟩ := by
            unfold Test; simp only [hm, hp, hr, hs]
          rw [hA, hB]; exact ⟨rfl, rfl⟩
        | ok extra =>
          have hlaunch : launchOf { t' with FlakeAttempts := f } w.reportDir extra
              = launchOf t' w.reportDir extra := rfl
          cases hrun : w.run (launchOf t' w.reportDir extra) with
          | error e2 =>
            have hA : Test { t with FlakeAttempts := f } w =
                ⟨.error (.testRunError e2), 1, some (launchOf t' w.reportDir extra),
                  { t' with FlakeAttempts := f }⟩ := by
              unfold Test; simp only [hm, hclone, hp, hress, hsplit, hs, hlaunch, hrun]
            have hB : Test t w =
                ⟨.error (.testRunError e2), 1, some (launchOf t' w.reportDir extra), t'⟩ := by
              unfold Test; simp only [hm, hp, hr, hs, hrun]
            rw [hA, hB]; exact ⟨rfl, rfl⟩
          | ok z =>
            have hA : Test { t with FlakeAttempts := f } w =
                ⟨.ok (), 1, some (launchOf t' w.reportDir extra),
                  { t' with FlakeAttempts := f }⟩ := by
              unfold Test; simp only [hm, hclone, hp, hress, hsplit, hs, hlaunch, hrun]
            have hB : Test t w =
                ⟨.ok (), 1, some (launchOf t' w.reportDir extra), t'⟩ := by
              unfold Test; simp only [hm, hp, hr, hs, hrun]
            rw [hA, hB]; exact ⟨rfl, rfl⟩

/-- C9: two configurations identical except for their (positive)
`FlakeAttempts` values produce the identical subprocess invocation (same
path, argument vector, and environment) and the identical result. -/
theorem c9_flake_attempts_unobservable (t : Tester) (w : World) (a b : Int)
    (ha : 0 < a) (hb : 0 < b) :
    (Test { t with FlakeAttempts := a } w).launched
      = (Test { t with FlakeAttempts := b } w).launched ∧
    (Test { t with FlakeAttempts := a } w).result
      = (Test { t with FlakeAttempts := b } w).result := by
  obtain ⟨hl1, hr1⟩ := Test_flake_congr t w a
  obtain ⟨hl2, hr2⟩ := Test_flake_congr t w b
  exact ⟨hl1.trans hl2.symm, hr1.trans hr2.symm⟩

/-- C9 witness: flake attempts one versus two on a benign run. -/
theorem c9_flake_attempts_unobservable_witness :
    (Test { NewDefaultTester with FlakeAttempts := 1 } wOK).launched
      = (Test { NewDefaultTester with FlakeAttempts := 2 } wOK).launched ∧
    (Test { NewDefaultTester with FlakeAttempts := 1 } wOK).result
      = (Test { NewDefaultTester with FlakeAttempts := 2 } wOK).result :=
  c9_flake_attempts_unobservable NewDefaultTester wOK 1 2 (by decide) (by decide)

/-- C10: in every run of the program (starting from `NewDefaultTester`)
that reaches the subprocess invocation, the runner binary path is still
the empty string and the empty string occupies the suite-path position of
the assembled argument vector: nothing ever assigns `ginkgoPath` or
`e2eTestPath`. -/
theorem c10_binary_paths_never_assigned (w : ExecWorld) (l : Launch)
    (h : (MainRun w).launched = some l) :
    l.path = "" ∧
    ∃ extra, stringSplit w.flags.GinkgoArgs = .ok extra ∧
      l.args[extra.length + 1]? = some "" := by
  cases h1 : w.gpflagResult with
  | error e =>
    have hn : (MainRun w).launched = none := by unfold MainRun Execute; simp only [h1]
    rw [hn] at h; exact Option.noConfusion h
  | ok u =>
    cases h2 : w.parseResult with
    | error e =>
      have hn : (MainRun w).launched = none := by unfold MainRun Execute; simp only [h1, h2]
      rw [hn] at h; exact Option.noConfusion h
    | ok v =>
      cases h3 : w.helpFlag with
      | true =>
        have hn : (MainRun w).launched = none := by
          unfold MainRun Execute; simp [h1, h2, h3]
        rw [hn] at h; exact Option.noConfusion h
      | false =>
        cases hi : initKubetest2Info (applyFlags NewDefaultTester w.flags) w.runDirEnv w.getwd with
        | error e =>
          have hn : (MainRun w).launched = none := by
            unfold MainRun Execute; simp [h1, h2, h3, hi]
          rw [hn] at h; exact Option.noConfusion h
        | ok t2 =>
          have hL : (MainRun w).launched = (Test t2 w.world).launched := by
            unfold MainRun Execute; simp [h1, h2, h3, hi]
          rw [hL] at h
          obtain ⟨t', extra, hr, hs, ht, hld⟩ := Test_launched_spec t2 w.world l h
          have h4 := initKubetest2Info_eq (applyFlags NewDefaultTester w.flags) t2
            w.runDirEnv w.getwd hi
          have h5 := resolveKubeconfig_eq t2 t' w.world hr
          have hgp : t'.ginkgoPath = "" := by rw [h5, h4]; rfl
          have he2e : t'.e2eTestPath = "" := by rw [h5, h4]; rfl
          have hga : t'.GinkgoArgs = w.flags.GinkgoArgs := by rw [h5, h4]; rfl
          refine ⟨?_, extra, ?_, ?_⟩
          · rw [hld]; exact hgp
          · rw [← hga]; exact hs
          · rw [hld]
            show (ginkgoArgs t' w.world.reportDir extra)[extra.length + 1]? = some ""
            unfold ginkgoArgs
            rw [List.getElem?_append_left (by simp)]
            rw [List.getElem?_append_right (by omega)]
            have hidx : extra.length + 1 - extra.length = 1 := by omega
            rw [hidx]
            simp [he2e]

/-- C10 witness: a benign full run from defaults; the launch path is
empty and the suite-path slot of the vector holds the empty string. -/
theorem c10_binary_paths_never_assigned_witness :
    (⟨"", ["--nodes=1", "", "--", "--kubeconfig=envkc", "--ginkgo.skip=", "--ginkgo.focus=",
        "--report-dir=rdir", "--ginkgo.timeout=0s"], []⟩ : Launch).path = "" ∧
    ∃ extra, stringSplit eOK.flags.GinkgoArgs = .ok extra ∧
      (["--nodes=1", "", "--", "--kubeconfig=envkc", "--ginkgo.skip=", "--ginkgo.focus=",
        "--report-dir=rdir", "--ginkgo.timeout=0s"] : List String)[extra.length + 1]? = some "" :=
  c10_binary_paths_never_assigned eOK
    ⟨"", ["--nodes=1", "", "--", "--kubeconfig=envkc", "--ginkgo.skip=", "--ginkgo.focus=",
      "--report-dir=rdir", "--ginkgo.timeout=0s"], []⟩ (by decide)

end GitRemoteTester
